import Mathlib

/-!
Verification development for the visa_check scan-orchestration core.

Shallow embedding of the Python sources under `backend/`:
* `backend/auth/otp_handler.py` — OTP issuance and verification store;
* `backend/core/proxy_manager.py` — proxy pool and per-country rotation;
* `backend/core/session_manager.py` — tenant session registry, admission
  and login serialization;
* `backend/scanner/screen_detector.py` — screen classification lookup;
* `backend/scanner/availability_checker.py` — date-slot preference tagging.

Conventions: Python `datetime` instants are abstract `Nat` ticks (minutes),
threaded explicitly where the source calls `datetime.utcnow()` /
`datetime.now()`; Python dicts are association lists updated in place
(first matching key replaced, new keys appended — matching dict semantics
for unique keys); SHA-256 is an abstract digest function parameter, since
the source only ever compares digests for equality.
-/

namespace VisaCheck

/-! ### Association-list helpers (model of Python `dict`) -/

/-- Look up a key in an association list (Python `d.get(k)` / `d[k]`). -/
def assocGet? {β : Type} (l : List (String × β)) (k : String) : Option β :=
  match l.find? (fun p => p.1 == k) with
  | some p => some p.2
  | none => none

/-- Set a key in an association list (Python `d[k] = v`): the first
occurrence is replaced, a missing key is appended. -/
def assocSet {β : Type} : List (String × β) → String → β → List (String × β)
  | [], k, v => [(k, v)]
  | (k', v') :: rest, k, v =>
      if k' == k then (k, v) :: rest else (k', v') :: assocSet rest k v

/-- Delete a key from an association list (Python `del d[k]`; a dict holds
each key at most once, so removing all occurrences is faithful). -/
def assocErase {β : Type} (l : List (String × β)) (k : String) : List (String × β) :=
  l.filter (fun p => !(p.1 == k))

theorem assocGet?_assocSet_self {β : Type} (l : List (String × β)) (k : String) (v : β) :
    assocGet? (assocSet l k v) k = some v := by
  induction l with
  | nil => simp [assocSet, assocGet?, List.find?]
  | cons p rest ih =>
    obtain ⟨k', v'⟩ := p
    by_cases h : k' == k
    · simp [assocSet, h, assocGet?, List.find?]
    · simp only [assocSet, h, if_false]
      simpa [assocGet?, List.find?, h] using ih

theorem assocGet?_assocSet_ne {β : Type} (l : List (String × β)) (k k' : String) (v : β)
    (h : k' ≠ k) : assocGet? (assocSet l k v) k' = assocGet? l k' := by
  induction l with
  | nil =>
    have hkk : (k == k') = false := by simpa using Ne.symm h
    simp [assocSet, assocGet?, List.find?, hkk]
  | cons p rest ih =>
    obtain ⟨k1, v1⟩ := p
    by_cases h1 : (k1 == k) = true
    · have hk : k1 = k := by simpa using h1
      subst hk
      have hkk : (k1 == k') = false := by simpa using Ne.symm h
      simp [assocSet, assocGet?, List.find?, hkk]
    · have h1f : (k1 == k) = false := by simpa using h1
      simp only [assocSet, h1f, Bool.false_eq_true, if_false]
      by_cases h2 : (k1 == k') = true
      · simp [assocGet?, List.find?, h2]
      · have h2f : (k1 == k') = false := by simpa using h2
        simpa [assocGet?, List.find?, h2f] using ih

theorem assocGet?_assocErase_self {β : Type} (l : List (String × β)) (k : String) :
    assocGet? (assocErase l k) k = none := by
  induction l with
  | nil => simp [assocErase, assocGet?, List.find?]
  | cons p rest ih =>
    obtain ⟨k', v'⟩ := p
    by_cases h : k' == k
    · simpa [assocErase, h, assocGet?] using ih
    · simp only [assocErase, List.filter] at ih ⊢
      simpa [h, assocGet?, List.find?] using ih

/-! ### `backend/auth/otp_handler.py` -/

/-- `OTPChannel` enum. -/
inductive OTPChannel where
  | SMS
  | EMAIL
deriving DecidableEq, Repr

/-- `OTPChannel.value` strings. -/
def OTPChannel.value : OTPChannel → String
  | .SMS => "sms"
  | .EMAIL => "email"

/-- `OTPStatus` enum. -/
inductive OTPStatus where
  | PENDING
  | VERIFIED
  | EXPIRED
  | INVALID
  | MAX_ATTEMPTS_EXCEEDED
deriving DecidableEq, Repr

/-- `OTPStatus.value` strings. -/
def OTPStatus.value : OTPStatus → String
  | .PENDING => "pending"
  | .VERIFIED => "verified"
  | .EXPIRED => "expired"
  | .INVALID => "invalid"
  | .MAX_ATTEMPTS_EXCEEDED => "max_attempts_exceeded"

/-- `OTPRecord` dataclass. Instants are abstract ticks (minutes). -/
structure OTPRecord where
  otp_hash : String
  channel : OTPChannel
  created_at : Nat
  expires_at : Nat
  attempts : Nat := 0
  verified : Bool := false
deriving DecidableEq, Repr

/-- `OTPHandler.__init__` configuration (defaults 6 / 5 / 3). -/
structure OTPConfig where
  otp_length : Nat := 6
  expiry_minutes : Nat := 5
  max_attempts : Nat := 3
deriving Repr

/-- The `_otp_store` dict. -/
abbrev OTPStore := List (String × OTPRecord)

/-- `OTPHandler._get_storage_key`. -/
def getStorageKey (identifier : String) (channel : OTPChannel) : String :=
  channel.value ++ ":" ++ identifier

/-- Result dictionary of `OTPHandler.verify_otp`. -/
structure VerifyResult where
  verified : Bool
  status : OTPStatus
  message : String
  remaining_attempts : Option Nat := none
deriving DecidableEq, Repr

/-- Store effect of `OTPHandler.generate_and_send_otp`: the fresh record is
written under the storage key. The randomly generated code and the digest
function (`_hash_otp`, SHA-256 in the source) are parameters; the delivery
callback and the returned metadata dict touch no store state and are not
modelled. -/
def generate_and_send_otp (cfg : OTPConfig) (hash : String → String) (store : OTPStore)
    (now : Nat) (identifier : String) (channel : OTPChannel) (otp : String) : OTPStore :=
  assocSet store (getStorageKey identifier channel)
    { otp_hash := hash otp
      channel := channel
      created_at := now
      expires_at := now + cfg.expiry_minutes
      attempts := 0
      verified := false }

/-- `OTPHandler.verify_otp`, returning the result dict and the updated store.
`now` stands for `datetime.utcnow()`; `hash` for `_hash_otp`. -/
def verify_otp (cfg : OTPConfig) (hash : String → String) (store : OTPStore)
    (now : Nat) (identifier : String) (channel : OTPChannel) (otp : String) :
    VerifyResult × OTPStore :=
  let storage_key := getStorageKey identifier channel
  match assocGet? store storage_key with
  | none =>
      ({ verified := false, status := .INVALID,
         message := "No OTP found for this identifier" }, store)
  | some record =>
      if record.verified then
        ({ verified := false, status := .INVALID,
           message := "OTP has already been used" }, store)
      else if record.expires_at < now then
        ({ verified := false, status := .EXPIRED,
           message := "OTP has expired" }, assocErase store storage_key)
      else if cfg.max_attempts ≤ record.attempts then
        ({ verified := false, status := .MAX_ATTEMPTS_EXCEEDED,
           message := "Maximum verification attempts exceeded" },
         assocErase store storage_key)
      else
        let record := { record with attempts := record.attempts + 1 }
        if hash otp = record.otp_hash then
          ({ verified := true, status := .VERIFIED,
             message := "OTP verified successfully" },
           assocSet store storage_key { record with verified := true })
        else
          let remaining := cfg.max_attempts - record.attempts
          ({ verified := false, status := .INVALID,
             message := "Invalid OTP. " ++ toString remaining ++ " attempts remaining",
             remaining_attempts := some remaining },
           assocSet store storage_key record)

/-! ### `backend/core/proxy_manager.py` -/

/-- `Proxy` dataclass. `port` is `Int` since Python `int(...)` also accepts
negative numerals. -/
structure Proxy where
  host : String
  port : Int
  username : String
  password : String
deriving DecidableEq, Repr

/-- `Proxy.__str__`: `f"{self.host}:{self.port}"`. -/
def Proxy.str (p : Proxy) : String :=
  p.host ++ ":" ++ toString p.port

/-- The fixed tenant ordering in `get_proxy_for_country`. -/
def country_codes : List String :=
  ["fra", "dnk", "hrv", "cze", "nld", "lux", "bel", "swe", "ltu", "fin", "bgr"]

/-- `ProxyManager` mutable state. -/
structure ProxyManagerState where
  api_url : String := ""
  proxies : List Proxy := []
  country_proxy_index : List (String × Nat) := []
  used_proxies : List (String × List String) := []
deriving DecidableEq, Repr

/-- `ProxyManager.get_proxy_for_country`. The `try/except ValueError` around
`country_codes.index(...)` becomes `indexOf?` with default 0. The final
`self.proxies[index]` is modelled with `get?` (Python raises `IndexError`
out of range; for states built by these operations the index is in range). -/
def get_proxy_for_country (st : ProxyManagerState) (country_code : String) :
    Option Proxy × ProxyManagerState :=
  if st.proxies.isEmpty then (none, st)
  else
    let st :=
      if (assocGet? st.country_proxy_index country_code).isSome then st
      else
        let offset := (country_codes.indexOf? country_code).getD 0
        { st with
          country_proxy_index :=
            assocSet st.country_proxy_index country_code (offset % st.proxies.length)
          used_proxies := assocSet st.used_proxies country_code [] }
    let index := (assocGet? st.country_proxy_index country_code).getD 0
    (st.proxies.get? index, st)

/-- `ProxyManager.rotate_proxy_for_country`. -/
def rotate_proxy_for_country (st : ProxyManagerState) (country_code : String) :
    Option Proxy × ProxyManagerState :=
  if st.proxies.isEmpty then (none, st)
  else
    match assocGet? st.country_proxy_index country_code with
    | none => get_proxy_for_country st country_code
    | some current_index =>
        match st.proxies.get? current_index with
        | none => (none, st)  -- Python raises IndexError here; unreachable via the API
        | some current_proxy =>
            let used := (assocGet? st.used_proxies country_code).getD []
            let st := { st with
              used_proxies :=
                assocSet st.used_proxies country_code (used ++ [current_proxy.str]) }
            let next_index := (current_index + 1) % st.proxies.length
            let st := { st with
              country_proxy_index := assocSet st.country_proxy_index country_code next_index }
            (st.proxies.get? next_index, st)

/-- A received HTTP response, as `fetch_proxies` consumes it. -/
structure HttpResponse where
  status_code : Nat
  text : String
deriving Repr

/-- Python `str.strip()` over the character list: drop leading and trailing
whitespace. -/
def pyStrip (cs : List Char) : List Char :=
  ((cs.dropWhile Char.isWhitespace).reverse.dropWhile Char.isWhitespace).reverse

/-- Python `str.split(sep)` for a one-character separator: `"".split(sep)`
is `[""]`, and consecutive separators yield empty fields. -/
def splitOnChar (sep : Char) : List Char → List (List Char)
  | [] => [[]]
  | c :: rest =>
      let r := splitOnChar sep rest
      if c = sep then [] :: r
      else
        match r with
        | [] => [[c]]
        | h :: t => (c :: h) :: t

/-- Left-to-right digit accumulation. -/
def digitsToNatAux : List Char → Nat → Option Nat
  | [], acc => some acc
  | c :: rest, acc =>
      if c.isDigit then digitsToNatAux rest (acc * 10 + (c.toNat - 48)) else none

/-- Digit run to a number (`none` when empty or a non-digit appears). -/
def digitsToNat? : List Char → Option Nat
  | [] => none
  | cs => digitsToNatAux cs 0

/-- Python `int(s)`: surrounding whitespace tolerated, optional sign, then a
non-empty digit run (numeric-literal underscores are not modelled). -/
def pyInt? (cs : List Char) : Option Int :=
  match pyStrip cs with
  | '-' :: rest => (digitsToNat? rest).map (fun n => -(n : Int))
  | '+' :: rest => (digitsToNat? rest).map (fun n => (n : Int))
  | rest => (digitsToNat? rest).map (fun n => (n : Int))

/-- `response.text.strip().split("\n")` as character lists. -/
def fetchLines (text : String) : List (List Char) :=
  splitOnChar '\n' (pyStrip text.data)

/-- The parsing loop of `fetch_proxies` over the split lines, starting from
`self.proxies = []`. Second component `false` models the `int(parts[1])`
exception escaping to the `except` handler: the proxies appended before the
bad line stay, and the call reports failure. -/
def parseProxyLines : List (List Char) → List Proxy → List Proxy × Bool
  | [], acc => (acc, true)
  | line :: rest, acc =>
      let line := pyStrip line
      if line.isEmpty then parseProxyLines rest acc
      else
        let parts := splitOnChar ':' line
        if 4 ≤ parts.length then
          match pyInt? (parts.getD 1 []) with
          | none => (acc, false)
          | some port =>
              parseProxyLines rest
                (acc ++ [{ host := String.mk (parts.getD 0 []), port := port,
                           username := String.mk (parts.getD 2 []),
                           password := String.mk (parts.getD 3 []) }])
        else parseProxyLines rest acc

/-- `ProxyManager.fetch_proxies`, as a function of the received response
(the network call itself is outside the model). Returns the new state and
the Boolean result. -/
def fetch_proxies (st : ProxyManagerState) (resp : HttpResponse) :
    ProxyManagerState × Bool :=
  if resp.status_code ≠ 200 then (st, false)
  else
    let parsed := parseProxyLines (fetchLines resp.text) []
    ({ st with proxies := parsed.1 }, parsed.2 && decide (0 < parsed.1.length))

/-! ### `backend/core/session_manager.py` -/

/-- `ScanStatus` enum. -/
inductive ScanStatus where
  | IDLE
  | CHECKING
  | WAITING_LOGIN
  | LOGGING_IN
  | WAITING_OTP
  | SCANNING
  | PAUSED
  | ERROR
  | COMPLETED
deriving DecidableEq, Repr

/-- `CountrySession` dataclass (instants are `Nat` ticks; the `combinations`
dicts are string-keyed/string-valued association lists). -/
structure CountrySession where
  country_code : String
  status : ScanStatus := .IDLE
  current_round : Nat := 0
  total_rounds : Nat := 5
  current_combination : Nat := 0
  total_combinations : Nat := 0
  combinations : List (List (String × String)) := []
  current_proxy : Option String := none
  start_time : Option Nat := none
  last_update : Option Nat := none
  error_message : Option String := none
  appointments_found : Nat := 0
  total_checks : Nat := 0
deriving DecidableEq, Repr

/-- `SessionManager` state. `login_lock` is the `asyncio.Lock`, recorded as
its holder (`none` = unlocked). `login_in_progress` is the source's
`_login_in_progress` flag, set in `__init__` and never touched again; the
equally unused `login_queue` is omitted. -/
structure SessionManagerState where
  max_parallel : Nat := 3
  sessions : List (String × CountrySession) := []
  login_lock : Option String := none
  login_in_progress : Bool := false
deriving DecidableEq, Repr

/-- `SessionManager.get_session`: look up or create-and-insert the session. -/
def get_session (st : SessionManagerState) (country_code : String) :
    CountrySession × SessionManagerState :=
  match assocGet? st.sessions country_code with
  | some s => (s, st)
  | none =>
      let s : CountrySession := { country_code := country_code }
      (s, { st with sessions := assocSet st.sessions country_code s })

/-- The `active_statuses` list of `get_active_count` / `get_active_countries`. -/
def active_statuses : List ScanStatus :=
  [.CHECKING, .WAITING_LOGIN, .LOGGING_IN, .WAITING_OTP, .SCANNING]

/-- `SessionManager.get_active_count`. -/
def get_active_count (st : SessionManagerState) : Nat :=
  (st.sessions.filter (fun p => active_statuses.contains p.2.status)).length

/-- `SessionManager.can_start_scan`. -/
def can_start_scan (st : SessionManagerState) : Bool :=
  get_active_count st < st.max_parallel

/-- `SessionManager.start_session` (note: it performs no admission check). -/
def start_session (st : SessionManagerState) (now : Nat) (country_code : String)
    (proxy : Option String) : SessionManagerState :=
  let (s, st) := get_session st country_code
  let s := { s with
    status := ScanStatus.CHECKING
    start_time := some now
    last_update := some now
    current_round := 0
    current_combination := 0
    error_message := none
    current_proxy := proxy }
  { st with sessions := assocSet st.sessions country_code s }

/-- `SessionManager.stop_session`. -/
def stop_session (st : SessionManagerState) (now : Nat) (country_code : String) :
    SessionManagerState :=
  let (s, st) := get_session st country_code
  { st with sessions :=
      (assocSet st.sessions country_code
        { s with status := ScanStatus.IDLE, last_update := some now }) }

/-- `SessionManager.release_login`. It only changes the status; it does not
touch `login_lock` (which `request_login` already released on return). -/
def release_login (st : SessionManagerState) (now : Nat) (country_code : String) :
    SessionManagerState :=
  let (s, st) := get_session st country_code
  if s.status = ScanStatus.LOGGING_IN then
    { st with sessions :=
        (assocSet st.sessions country_code
          { s with status := ScanStatus.SCANNING, last_update := some now }) }
  else st

/-! #### Interleaving model of `request_login` / `release_login`

`request_login` is a coroutine; under asyncio's cooperative scheduling its
body runs atomically between awaits. It has exactly one suspension point:
acquiring `login_lock`. So each in-flight call is at one of the program
positions below, and the atomic steps are: (i) the prefix up to the await
(set the session status to `WAITING_LOGIN`), (ii) the lock grant, and
(iii) the `async with` body up to and including the `return` — which sets
the status to `LOGGING_IN` and, because `return` exits the `async with`
block, immediately releases the lock. `release_login` is an ordinary
synchronous call, a single atomic step. -/

/-- Program position of one tenant's in-flight `request_login` call. -/
inductive RequestLoginPc where
  | notStarted
  | awaitingLock
  | lockAcquired
  | returned
deriving DecidableEq, Repr

/-- A configuration: the shared `SessionManager` plus each tenant's
coroutine position. -/
structure LoginConf where
  sm : SessionManagerState
  pcs : List (String × RequestLoginPc) := []
deriving DecidableEq, Repr

/-- Position of tenant `c` (never-started tenants are at `notStarted`). -/
def pcOf (conf : LoginConf) (c : String) : RequestLoginPc :=
  (assocGet? conf.pcs c).getD .notStarted

/-- Scheduler events for the login protocol. -/
inductive LoginEvent where
  | startRequest (c : String)
  | lockGranted (c : String)
  | requestReturns (c : String)
  | callRelease (c : String)

/-- One atomic asyncio step. Events whose guard does not hold (wrong
position, lock busy) leave the configuration unchanged. -/
def loginStep (conf : LoginConf) (now : Nat) : LoginEvent → LoginConf
  | .startRequest c =>
      if pcOf conf c = .notStarted then
        let (s, sm) := get_session conf.sm c
        let sm := { sm with sessions :=
          (assocSet sm.sessions c
            { s with status := ScanStatus.WAITING_LOGIN, last_update := some now }) }
        { sm := sm, pcs := assocSet conf.pcs c .awaitingLock }
      else conf
  | .lockGranted c =>
      if pcOf conf c = .awaitingLock ∧ conf.sm.login_lock = none then
        { sm := { conf.sm with login_lock := some c },
          pcs := assocSet conf.pcs c .lockAcquired }
      else conf
  | .requestReturns c =>
      if pcOf conf c = .lockAcquired then
        let (s, sm) := get_session conf.sm c
        let sm := { sm with
          sessions :=
            (assocSet sm.sessions c
              { s with status := ScanStatus.LOGGING_IN, last_update := some now })
          login_lock := none }
        { sm := sm, pcs := assocSet conf.pcs c .returned }
      else conf
  | .callRelease c => { conf with sm := release_login conf.sm now c }

/-- Run a sequence of events, each with its own timestamp. -/
def runLogin (conf : LoginConf) : List (Nat × LoginEvent) → LoginConf
  | [] => conf
  | (now, ev) :: rest => runLogin (loginStep conf now ev) rest

/-- Status of tenant `c` in a configuration (IDLE when absent). -/
def statusOf (conf : LoginConf) (c : String) : ScanStatus :=
  match assocGet? conf.sm.sessions c with
  | some s => s.status
  | none => ScanStatus.IDLE

/-! ### `backend/scanner/screen_detector.py` -/

/-- `ScreenType` enum. -/
inductive ScreenType where
  | UNKNOWN
  | LOGIN
  | OTP_VERIFICATION
  | DASHBOARD
  | APPOINTMENT_SELECTION
  | DATE_SELECTION
  | TIME_SELECTION
  | CONFIRMATION
  | SUCCESS
  | ERROR
  | CAPTCHA
  | MAINTENANCE
  | BLOCKED
  | NO_APPOINTMENT
deriving DecidableEq, Repr

/-- `ScreenInfo` dataclass (metadata as a string-keyed association list). -/
structure ScreenInfo where
  screen_type : ScreenType
  url : String
  title : String
  has_captcha : Bool := false
  has_error : Bool := false
  error_message : Option String := none
  available_actions : List String := []
  metadata : List (String × String) := []
deriving DecidableEq, Repr

/-- The `action_map` literal inside `ScreenDetector.get_next_action`. -/
def next_action_map : List (ScreenType × String) :=
  [(.LOGIN, "login"),
   (.OTP_VERIFICATION, "enter_otp"),
   (.DASHBOARD, "navigate_to_appointment"),
   (.DATE_SELECTION, "select_date"),
   (.TIME_SELECTION, "select_time"),
   (.CONFIRMATION, "confirm"),
   (.CAPTCHA, "solve_captcha"),
   (.ERROR, "handle_error")]

/-- `ScreenDetector.get_next_action`: `action_map.get(screen_info.screen_type)`. -/
def get_next_action (screen_info : ScreenInfo) : Option String :=
  (next_action_map.find? (fun p => p.1 == screen_info.screen_type)).map Prod.snd

/-! ### `backend/scanner/availability_checker.py` -/

/-- `DateSlot` dataclass. -/
structure DateSlot where
  date : String
  day_name : String := ""
  slots : List String := []
  is_preferred : Bool := false
deriving DecidableEq, Repr

/-- `DAY_NAMES_TR.get(weekday, "")`: Turkish day names keyed by
`datetime.weekday()` (0 = Monday, ..., 4 = Friday, 6 = Sunday). -/
def day_names_tr (weekday : Nat) : String :=
  match weekday with
  | 0 => "Pazartesi"
  | 1 => "Salı"
  | 2 => "Çarşamba"
  | 3 => "Perşembe"
  | 4 => "Cuma"
  | 5 => "Cumartesi"
  | 6 => "Pazar"
  | _ => ""

/-- `AvailabilityChecker` preference configuration (`preferred_dates or []`,
`preferred_days or []`). -/
structure AvailabilityCheckerState where
  preferred_dates : List String := []
  preferred_days : List String := []
deriving Repr

/-- `AvailabilityChecker._is_preferred_date`. Python truthiness of the lists
becomes non-emptiness. -/
def is_preferred_date (ch : AvailabilityCheckerState) (date_slot : DateSlot) : Bool :=
  if !ch.preferred_dates.isEmpty && ch.preferred_dates.contains date_slot.date then true
  else if !ch.preferred_days.isEmpty && ch.preferred_days.contains date_slot.day_name then true
  else ch.preferred_dates.isEmpty && ch.preferred_days.isEmpty

/-! ## Theorems -/

/-- C3: `verify_otp` fails closed, case by case: unknown key → INVALID with
the store untouched; already-verified record → INVALID with the store
untouched; past expiry → EXPIRED and the record purged; attempt count at or
above `max_attempts` → MAX_ATTEMPTS_EXCEEDED and the record purged;
otherwise the attempt counter is incremented before the digest comparison,
and a wrong candidate yields INVALID reporting
`remaining_attempts = max_attempts - attempts` (with `attempts` the
just-incremented counter), the incremented record staying in the store. -/
theorem C3_verify_fails_closed (cfg : OTPConfig) (hash : String → String)
    (store : OTPStore) (now : Nat) (identifier : String) (channel : OTPChannel)
    (otp : String) :
    (assocGet? store (getStorageKey identifier channel) = none →
      (verify_otp cfg hash store now identifier channel otp).1.verified = false ∧
      (verify_otp cfg hash store now identifier channel otp).1.status = OTPStatus.INVALID ∧
      (verify_otp cfg hash store now identifier channel otp).2 = store) ∧
    (∀ rec : OTPRecord, assocGet? store (getStorageKey identifier channel) = some rec →
      (rec.verified = true →
        (verify_otp cfg hash store now identifier channel otp).1.verified = false ∧
        (verify_otp cfg hash store now identifier channel otp).1.status = OTPStatus.INVALID ∧
        (verify_otp cfg hash store now identifier channel otp).2 = store) ∧
      (rec.verified = false → rec.expires_at < now →
        (verify_otp cfg hash store now identifier channel otp).1.verified = false ∧
        (verify_otp cfg hash store now identifier channel otp).1.status = OTPStatus.EXPIRED ∧
        assocGet? (verify_otp cfg hash store now identifier channel otp).2
          (getStorageKey identifier channel) = none) ∧
      (rec.verified = false → ¬ rec.expires_at < now → cfg.max_attempts ≤ rec.attempts →
        (verify_otp cfg hash store now identifier channel otp).1.verified = false ∧
        (verify_otp cfg hash store now identifier channel otp).1.status =
          OTPStatus.MAX_ATTEMPTS_EXCEEDED ∧
        assocGet? (verify_otp cfg hash store now identifier channel otp).2
          (getStorageKey identifier channel) = none) ∧
      (rec.verified = false → ¬ rec.expires_at < now → rec.attempts < cfg.max_attempts →
        hash otp ≠ rec.otp_hash →
        (verify_otp cfg hash store now identifier channel otp).1.verified = false ∧
        (verify_otp cfg hash store now identifier channel otp).1.status = OTPStatus.INVALID ∧
        (verify_otp cfg hash store now identifier channel otp).1.remaining_attempts =
          some (cfg.max_attempts - (rec.attempts + 1)) ∧
        assocGet? (verify_otp cfg hash store now identifier channel otp).2
          (getStorageKey identifier channel) =
          some { rec with attempts := rec.attempts + 1 })) := by
  constructor
  · intro hnone
    simp [verify_otp, hnone]
  · intro rec hrec
    refine ⟨?_, ?_, ?_, ?_⟩
    · intro hv
      simp [verify_otp, hrec, hv]
    · intro hv hexp
      simp [verify_otp, hrec, hv, hexp, assocGet?_assocErase_self]
    · intro hv hexp hatt
      simp [verify_otp, hrec, hv, hexp, hatt, assocGet?_assocErase_self]
    · intro hv hexp hatt hhash
      simp [verify_otp, hrec, hv, hexp, Nat.not_le_of_lt hatt, hhash,
        assocGet?_assocSet_self]

/-- C3 witness: the expired branch at a concrete input. -/
theorem C3_verify_fails_closed_witness :
    (verify_otp {} id
        [(getStorageKey "a" OTPChannel.SMS,
          { otp_hash := "123456", channel := OTPChannel.SMS,
            created_at := 0, expires_at := 5 })] 6 "a" OTPChannel.SMS "123456").1.verified
        = false ∧
    (verify_otp {} id
        [(getStorageKey "a" OTPChannel.SMS,
          { otp_hash := "123456", channel := OTPChannel.SMS,
            created_at := 0, expires_at := 5 })] 6 "a" OTPChannel.SMS "123456").1.status
        = OTPStatus.EXPIRED ∧
    assocGet?
      (verify_otp {} id
        [(getStorageKey "a" OTPChannel.SMS,
          { otp_hash := "123456", channel := OTPChannel.SMS,
            created_at := 0, expires_at := 5 })] 6 "a" OTPChannel.SMS "123456").2
      (getStorageKey "a" OTPChannel.SMS) = none :=
  ((C3_verify_fails_closed {} id
      [(getStorageKey "a" OTPChannel.SMS,
        { otp_hash := "123456", channel := OTPChannel.SMS,
          created_at := 0, expires_at := 5 })] 6 "a" OTPChannel.SMS "123456").2
    { otp_hash := "123456", channel := OTPChannel.SMS,
      created_at := 0, expires_at := 5 } (by decide)).2.1 (by decide) (by decide)

/-- Storage key of the spec's example scenario (identifier "+905551234567"
over SMS). -/
def otpDemoKey : String := getStorageKey "+905551234567" OTPChannel.SMS

/-- Example-scenario store: one code issued for "+905551234567" over SMS at
instant 0, with the identity digest and plaintext "123456". -/
def otpDemoStore0 : OTPStore :=
  generate_and_send_otp {} id [] 0 "+905551234567" OTPChannel.SMS "123456"

/-- Example-scenario wrong guess: verify "000000" against the store. -/
def otpDemoWrongTry (st : OTPStore) : VerifyResult × OTPStore :=
  verify_otp {} id st 0 "+905551234567" OTPChannel.SMS "000000"

/-- C5 counterexample: after exactly `max_attempts = 3` consecutive wrong
verify calls the record is NOT purged — the third wrong try returns INVALID
(remaining 0) and leaves the record in the store with `attempts = 3`;
no purge has happened yet. -/
theorem C5_counterexample :
    (otpDemoWrongTry (otpDemoWrongTry (otpDemoWrongTry otpDemoStore0).2).2).1.status =
      OTPStatus.INVALID ∧
    assocGet? (otpDemoWrongTry (otpDemoWrongTry (otpDemoWrongTry otpDemoStore0).2).2).2
      otpDemoKey =
      some { otp_hash := "123456", channel := OTPChannel.SMS, created_at := 0,
             expires_at := 5, attempts := 3, verified := false } := by
  decide

/-- C5 amended: three consecutive wrong guesses report remaining attempts
2, 1, 0 and leave the record in the store with the attempt counter at the
cap; the purge happens on the NEXT verify call — even with the correct
code — which returns MAX_ATTEMPTS_EXCEEDED and removes the record; every
verify after that returns INVALID with the store unchanged, so no call
after the wrong guesses ever returns VERIFIED. -/
theorem C5_amended (hash : String → String) (t : Nat) (good w1 w2 w3 : String)
    (h1 : hash w1 ≠ hash good) (h2 : hash w2 ≠ hash good) (h3 : hash w3 ≠ hash good) :
    (verify_otp {} hash (generate_and_send_otp {} hash [] t "+905551234567"
        OTPChannel.SMS good) t "+905551234567" OTPChannel.SMS w1).1.remaining_attempts =
      some 2 ∧
    (verify_otp {} hash (verify_otp {} hash (generate_and_send_otp {} hash [] t
        "+905551234567" OTPChannel.SMS good) t "+905551234567" OTPChannel.SMS w1).2
        t "+905551234567" OTPChannel.SMS w2).1.remaining_attempts = some 1 ∧
    (verify_otp {} hash (verify_otp {} hash (verify_otp {} hash
        (generate_and_send_otp {} hash [] t "+905551234567" OTPChannel.SMS good)
        t "+905551234567" OTPChannel.SMS w1).2 t "+905551234567" OTPChannel.SMS w2).2
        t "+905551234567" OTPChannel.SMS w3).1.remaining_attempts = some 0 ∧
    (verify_otp {} hash (verify_otp {} hash (verify_otp {} hash
        (generate_and_send_otp {} hash [] t "+905551234567" OTPChannel.SMS good)
        t "+905551234567" OTPChannel.SMS w1).2 t "+905551234567" OTPChannel.SMS w2).2
        t "+905551234567" OTPChannel.SMS w3).1.status = OTPStatus.INVALID ∧
    assocGet? (verify_otp {} hash (verify_otp {} hash (verify_otp {} hash
        (generate_and_send_otp {} hash [] t "+905551234567" OTPChannel.SMS good)
        t "+905551234567" OTPChannel.SMS w1).2 t "+905551234567" OTPChannel.SMS w2).2
        t "+905551234567" OTPChannel.SMS w3).2 (getStorageKey "+905551234567"
        OTPChannel.SMS) =
      some { otp_hash := hash good, channel := OTPChannel.SMS, created_at := t,
             expires_at := t + 5, attempts := 3, verified := false } ∧
    (verify_otp {} hash (verify_otp {} hash (verify_otp {} hash (verify_otp {} hash
        (generate_and_send_otp {} hash [] t "+905551234567" OTPChannel.SMS good)
        t "+905551234567" OTPChannel.SMS w1).2 t "+905551234567" OTPChannel.SMS w2).2
        t "+905551234567" OTPChannel.SMS w3).2 t "+905551234567" OTPChannel.SMS
        good).1.verified = false ∧
    (verify_otp {} hash (verify_otp {} hash (verify_otp {} hash (verify_otp {} hash
        (generate_and_send_otp {} hash [] t "+905551234567" OTPChannel.SMS good)
        t "+905551234567" OTPChannel.SMS w1).2 t "+905551234567" OTPChannel.SMS w2).2
        t "+905551234567" OTPChannel.SMS w3).2 t "+905551234567" OTPChannel.SMS
        good).1.status = OTPStatus.MAX_ATTEMPTS_EXCEEDED ∧
    (verify_otp {} hash (verify_otp {} hash (verify_otp {} hash (verify_otp {} hash
        (generate_and_send_otp {} hash [] t "+905551234567" OTPChannel.SMS good)
        t "+905551234567" OTPChannel.SMS w1).2 t "+905551234567" OTPChannel.SMS w2).2
        t "+905551234567" OTPChannel.SMS w3).2 t "+905551234567" OTPChannel.SMS
        good).2 = [] ∧
    (∀ (now : Nat) (otp : String) (st : OTPStore), st = [] →
      (verify_otp {} hash st now "+905551234567" OTPChannel.SMS otp).1.verified = false ∧
      (verify_otp {} hash st now "+905551234567" OTPChannel.SMS otp).1.status =
        OTPStatus.INVALID ∧
      (verify_otp {} hash st now "+905551234567" OTPChannel.SMS otp).2 = st) := by
  have hexp : ¬ (t + 5 < t) := by omega
  simp [verify_otp, generate_and_send_otp, assocGet?, assocSet, assocErase,
    List.find?, List.filter, hexp, h1, h2, h3]

/-- C5 witness: the amended scenario instantiated with the identity digest,
the issued code "123456" and the wrong guess "000000"; the fourth call
(with the correct code) returns MAX_ATTEMPTS_EXCEEDED. -/
theorem C5_amended_witness :
    (verify_otp {} id (verify_otp {} id (verify_otp {} id (verify_otp {} id
        (generate_and_send_otp {} id [] 0 "+905551234567" OTPChannel.SMS "123456")
        0 "+905551234567" OTPChannel.SMS "000000").2 0 "+905551234567"
        OTPChannel.SMS "000000").2 0 "+905551234567" OTPChannel.SMS "000000").2
        0 "+905551234567" OTPChannel.SMS "123456").1.status =
      OTPStatus.MAX_ATTEMPTS_EXCEEDED :=
  (C5_amended id 0 "123456" "000000" "000000" "000000"
    (by decide) (by decide) (by decide)).2.2.2.2.2.2.1

/-- C6 counterexample: a successful `verify_otp` does NOT destroy the stored
record — the record stays in the store, flagged `verified`, with the attempt
counter incremented. -/
theorem C6_counterexample :
    (verify_otp {} id otpDemoStore0 0 "+905551234567" OTPChannel.SMS
      "123456").1.verified = true ∧
    assocGet? (verify_otp {} id otpDemoStore0 0 "+905551234567" OTPChannel.SMS
        "123456").2 otpDemoKey =
      some { otp_hash := "123456", channel := OTPChannel.SMS, created_at := 0,
             expires_at := 5, attempts := 1, verified := true } := by
  decide

/-- C6 amended: a successful verify marks the stored record `verified` and
RETAINS it in the store (it is not destroyed); the retained record can never
be used again — every later verify of that key returns INVALID with the
store unchanged, never VERIFIED. -/
theorem C6_amended (cfg : OTPConfig) (hash : String → String) (store : OTPStore)
    (now : Nat) (identifier : String) (channel : OTPChannel) (otp : String)
    (rec : OTPRecord)
    (hrec : assocGet? store (getStorageKey identifier channel) = some rec)
    (hver : rec.verified = false) (hexp : ¬ rec.expires_at < now)
    (hatt : rec.attempts < cfg.max_attempts) (hhash : hash otp = rec.otp_hash) :
    (verify_otp cfg hash store now identifier channel otp).1.verified = true ∧
    (verify_otp cfg hash store now identifier channel otp).1.status =
      OTPStatus.VERIFIED ∧
    assocGet? (verify_otp cfg hash store now identifier channel otp).2
        (getStorageKey identifier channel) =
      some { rec with attempts := rec.attempts + 1, verified := true } ∧
    (∀ (later : Nat) (otp' : String),
      (verify_otp cfg hash (verify_otp cfg hash store now identifier channel otp).2
          later identifier channel otp').1.verified = false ∧
      (verify_otp cfg hash (verify_otp cfg hash store now identifier channel otp).2
          later identifier channel otp').1.status = OTPStatus.INVALID ∧
      (verify_otp cfg hash (verify_otp cfg hash store now identifier channel otp).2
          later identifier channel otp').2 =
        (verify_otp cfg hash store now identifier channel otp).2) := by
  have h1 : (verify_otp cfg hash store now identifier channel otp).2 =
      assocSet store (getStorageKey identifier channel)
        { rec with attempts := rec.attempts + 1, verified := true } := by
    simp [verify_otp, hrec, hver, hexp, Nat.not_le_of_lt hatt, hhash]
  refine ⟨?_, ?_, ?_, ?_⟩
  · simp [verify_otp, hrec, hver, hexp, Nat.not_le_of_lt hatt, hhash]
  · simp [verify_otp, hrec, hver, hexp, Nat.not_le_of_lt hatt, hhash]
  · rw [h1]; exact assocGet?_assocSet_self ..
  · intro later otp'
    have h2 : assocGet? (verify_otp cfg hash store now identifier channel otp).2
        (getStorageKey identifier channel) =
        some { rec with attempts := rec.attempts + 1, verified := true } := by
      rw [h1]; exact assocGet?_assocSet_self ..
    generalize hX : (verify_otp cfg hash store now identifier channel otp).2 = X at h2 ⊢
    refine ⟨?_, ?_, ?_⟩ <;> simp [verify_otp, h2]

/-- C6 witness: the amended statement at the example scenario. -/
theorem C6_amended_witness :
    (verify_otp {} id otpDemoStore0 0 "+905551234567" OTPChannel.SMS
      "123456").1.status = OTPStatus.VERIFIED :=
  (C6_amended {} id otpDemoStore0 0 "+905551234567" OTPChannel.SMS "123456"
    { otp_hash := "123456", channel := OTPChannel.SMS, created_at := 0,
      expires_at := 5, attempts := 0, verified := false }
    (by decide) (by decide) (by decide) (by decide) (by decide)).2.1

/-- A one-entry demonstration pool used by the proxy-fetch theorems. -/
def demoProxy : Proxy := { host := "h", port := 1, username := "u", password := "p" }

/-- C4 counterexample: a 200 response with an empty body reports failure but
does NOT leave the previously held pool untouched — the old pool is wiped
(`self.proxies = []` runs before parsing, and nothing is parsed). -/
theorem C4_counterexample :
    (fetch_proxies { proxies := [demoProxy] } { status_code := 200, text := "" }).2
      = false ∧
    (fetch_proxies { proxies := [demoProxy] }
      { status_code := 200, text := "" }).1.proxies = [] ∧
    ([] : List Proxy) ≠ [demoProxy] := by
  decide

/-- C4 amended: a non-200 response leaves the state untouched and reports
failure; any 200 response replaces the pool wholesale with exactly the
proxies parsed from its body — retaining nothing of the previous pool even
when it reports failure — and reports success iff every line parsed without
error and at least one proxy resulted. In particular a 200 response whose
stripped body is empty leaves an empty pool and reports failure. -/
theorem C4_amended (st : ProxyManagerState) (resp : HttpResponse) :
    (resp.status_code ≠ 200 → fetch_proxies st resp = (st, false)) ∧
    (resp.status_code = 200 →
      (fetch_proxies st resp).1 =
        { st with proxies := (parseProxyLines (fetchLines resp.text) []).1 } ∧
      (fetch_proxies st resp).2 =
        ((parseProxyLines (fetchLines resp.text) []).2 &&
          decide (0 < (parseProxyLines (fetchLines resp.text) []).1.length))) ∧
    (resp.status_code = 200 → pyStrip resp.text.data = [] →
      (fetch_proxies st resp).1.proxies = [] ∧ (fetch_proxies st resp).2 = false) := by
  refine ⟨?_, ?_, ?_⟩
  · intro hne
    simp [fetch_proxies, hne]
  · intro h200
    constructor <;> simp [fetch_proxies, h200]
  · intro h200 hempty
    have hparse : parseProxyLines (splitOnChar '\n' []) [] = ([], true) := by decide
    constructor <;> simp [fetch_proxies, fetchLines, h200, hempty, hparse]

/-- C4 witness: the amended statement at a one-proxy pool and a 500
response (pool untouched, failure reported). -/
theorem C4_amended_witness :
    fetch_proxies { proxies := [demoProxy] } { status_code := 500, text := "x" } =
      ({ proxies := [demoProxy] }, false) :=
  (C4_amended { proxies := [demoProxy] } { status_code := 500, text := "x" }).1
    (by decide)

/-- C7 counterexample: `get_next_action` on an ERROR screen returns the
automatic action "handle_error", not `None` as the claim states. -/
theorem C7_counterexample :
    get_next_action { screen_type := ScreenType.ERROR, url := "", title := "" } =
      some "handle_error" ∧
    some "handle_error" ≠ (none : Option String) := by
  decide

/-- C7 amended: `get_next_action` is a pure lookup on
`screen_info.screen_type`: LOGIN → "login", OTP_VERIFICATION → "enter_otp",
DASHBOARD → "navigate_to_appointment", DATE_SELECTION → "select_date",
TIME_SELECTION → "select_time", CONFIRMATION → "confirm",
CAPTCHA → "solve_captcha", and — unlike the claim — ERROR → "handle_error";
no automatic action (`none`) results exactly for UNKNOWN,
APPOINTMENT_SELECTION, SUCCESS, MAINTENANCE, BLOCKED and NO_APPOINTMENT. -/
theorem C7_amended (screen_info : ScreenInfo) :
    get_next_action screen_info =
      match screen_info.screen_type with
      | ScreenType.UNKNOWN => none
      | ScreenType.LOGIN => some "login"
      | ScreenType.OTP_VERIFICATION => some "enter_otp"
      | ScreenType.DASHBOARD => some "navigate_to_appointment"
      | ScreenType.APPOINTMENT_SELECTION => none
      | ScreenType.DATE_SELECTION => some "select_date"
      | ScreenType.TIME_SELECTION => some "select_time"
      | ScreenType.CONFIRMATION => some "confirm"
      | ScreenType.SUCCESS => none
      | ScreenType.ERROR => some "handle_error"
      | ScreenType.CAPTCHA => some "solve_captcha"
      | ScreenType.MAINTENANCE => none
      | ScreenType.BLOCKED => none
      | ScreenType.NO_APPOINTMENT => none := by
  obtain ⟨t, u, ti, hc, he, em, aa, md⟩ := screen_info
  cases t <;> rfl

/-- C9: with no preferred dates and no preferred days every slot is tagged
preferred (absence of a constraint accepts everything); with preferred days
exactly `["Friday"]` and no preferred dates, every slot whose weekday is not
Friday (weekday 4) — `day_name` being the collector's Turkish day label —
has `is_preferred = false`, so only Friday slots could ever be tagged. -/
theorem C9_preferred_tagging :
    (∀ slot : DateSlot, is_preferred_date {} slot = true) ∧
    (∀ (date : String) (sl : List String) (pf : Bool) (w : Nat), w ≠ 4 →
      is_preferred_date { preferred_days := ["Friday"] }
        { date := date, day_name := day_names_tr w, slots := sl, is_preferred := pf } =
        false) := by
  constructor
  · intro slot
    simp [is_preferred_date]
  · intro date sl pf w hw
    rcases w with _ | _ | _ | _ | _ | _ | _ | n <;>
      simp [is_preferred_date, day_names_tr]

/-- C9 witness: a Thursday slot (weekday 3) under the Friday-only
configuration is not preferred. -/
theorem C9_preferred_tagging_witness :
    is_preferred_date { preferred_days := ["Friday"] }
      { date := "2025-01-02", day_name := day_names_tr 3, slots := [],
        is_preferred := false } = false :=
  C9_preferred_tagging.2 "2025-01-02" [] false 3 (by decide)

/-- C10: `rotate_proxy_for_country` for a tenant with no rotation state and a
non-empty pool behaves exactly like a first `get_proxy_for_country` call:
it returns the tenant's deterministic initial proxy (fixed tenant-order
offset modulo the pool size), creates the tenant's rotation state, and
leaves the tenant's used-proxy history empty. -/
theorem C10_first_rotate_equals_assign (st : ProxyManagerState) (c : String)
    (hne : st.proxies ≠ []) (hidx : assocGet? st.country_proxy_index c = none) :
    rotate_proxy_for_country st c = get_proxy_for_country st c ∧
    (rotate_proxy_for_country st c).1 =
      st.proxies.get? (((country_codes.indexOf? c).getD 0) % st.proxies.length) ∧
    assocGet? (rotate_proxy_for_country st c).2.country_proxy_index c =
      some (((country_codes.indexOf? c).getD 0) % st.proxies.length) ∧
    assocGet? (rotate_proxy_for_country st c).2.used_proxies c = some [] := by
  have h0 : st.proxies.isEmpty = false := by
    cases hp : st.proxies with
    | nil => exact absurd hp hne
    | cons a l => rfl
  have hrot : rotate_proxy_for_country st c = get_proxy_for_country st c := by
    simp [rotate_proxy_for_country, h0, hidx]
  refine ⟨hrot, ?_, ?_, ?_⟩ <;>
    simp [hrot, get_proxy_for_country, h0, hidx, assocGet?_assocSet_self]

/-- C10 witness: first `rotate` for "swe" on a fresh one-proxy pool. -/
theorem C10_first_rotate_equals_assign_witness :
    rotate_proxy_for_country { proxies := [demoProxy] } "swe" =
      get_proxy_for_country { proxies := [demoProxy] } "swe" :=
  (C10_first_rotate_equals_assign { proxies := [demoProxy] } "swe"
    (by decide) (by decide)).1

/-- `n` successive `rotate_proxy_for_country` calls for one tenant (state
only; each call's return value is recovered by one more `rotate`). -/
def rotateN (st : ProxyManagerState) (c : String) : Nat → ProxyManagerState
  | 0 => st
  | n + 1 => (rotate_proxy_for_country (rotateN st c n) c).2

/-- Junk proxy used as the default of total indexing in statements; every
indexed position is in range. -/
def noProxy : Proxy := { host := "", port := 0, username := "", password := "" }

/-- State invariant of iterated rotation: the pool is untouched, the
tenant's index advances by one modulo the pool size per call, and the
tenant's history accumulates the string forms of the proxies used before
each switch, in order. -/
theorem rotateN_invariant (st : ProxyManagerState) (c : String) (i : Nat)
    (hne : st.proxies ≠ []) (hidx : assocGet? st.country_proxy_index c = some i)
    (hi : i < st.proxies.length) (n : Nat) :
    (rotateN st c n).proxies = st.proxies ∧
    assocGet? (rotateN st c n).country_proxy_index c =
      some ((i + n) % st.proxies.length) ∧
    (assocGet? (rotateN st c n).used_proxies c).getD [] =
      (assocGet? st.used_proxies c).getD [] ++
        (List.range n).map (fun j =>
          (st.proxies.getD ((i + j) % st.proxies.length) noProxy).str) := by
  induction n with
  | zero =>
    refine ⟨rfl, ?_, by simp [rotateN]⟩
    simpa [rotateN, Nat.mod_eq_of_lt hi] using hidx
  | succ n ih =>
    obtain ⟨ihpool, ihidx, ihused⟩ := ih
    have hk : 0 < st.proxies.length := List.length_pos.mpr hne
    have hcur : (i + n) % st.proxies.length < st.proxies.length := Nat.mod_lt _ hk
    obtain ⟨p, hp⟩ : ∃ p, st.proxies[(i + n) % st.proxies.length]? = some p :=
      ⟨_, List.getElem?_eq_getElem hcur⟩
    have hp' : (rotateN st c n).proxies[(i + n) % st.proxies.length]? = some p := by
      rw [ihpool]; exact hp
    have hpd : st.proxies.getD ((i + n) % st.proxies.length) noProxy = p := by
      simp [List.getD, hp]
    have h0 : (rotateN st c n).proxies ≠ [] := by rw [ihpool]; exact hne
    refine ⟨?_, ?_, ?_⟩ <;>
      simp [rotateN, rotate_proxy_for_country, h0, hne, ihpool, ihidx, hp, hp',
        ihused, assocGet?_assocSet_self, List.range_succ, hpd, Nat.mod_add_mod,
        Nat.add_assoc]

/-- C8: on a fixed non-empty pool, `get_proxy_for_country` is idempotent per
tenant (two calls with no intervening rotate return the identical proxy);
and for a tenant assigned at index `i < k` (`k` the pool size), the
`(n+1)`-st successive `rotate_proxy_for_country` returns the proxy at index
`(i + n + 1) mod k`, after `k` rotate calls the tenant's index — and hence
its assigned proxy — is back to the original `i`, and each rotate appends
the string form of the previously used proxy to the tenant's history. -/
theorem C8_rotation_determinism :
    (∀ (st : ProxyManagerState) (c : String),
      (get_proxy_for_country (get_proxy_for_country st c).2 c).1 =
        (get_proxy_for_country st c).1) ∧
    (∀ (st : ProxyManagerState) (c : String) (i : Nat),
      st.proxies ≠ [] → assocGet? st.country_proxy_index c = some i →
      i < st.proxies.length →
      (∀ n : Nat,
        (rotate_proxy_for_country (rotateN st c n) c).1 =
          st.proxies.get? ((i + n + 1) % st.proxies.length)) ∧
      assocGet? (rotateN st c st.proxies.length).country_proxy_index c = some i ∧
      (get_proxy_for_country (rotateN st c st.proxies.length) c).1 =
        st.proxies.get? i ∧
      (∀ n : Nat,
        (assocGet? (rotateN st c n).used_proxies c).getD [] =
          (assocGet? st.used_proxies c).getD [] ++
            (List.range n).map (fun j =>
              (st.proxies.getD ((i + j) % st.proxies.length) noProxy).str))) := by
  constructor
  · intro st c
    by_cases hne : st.proxies = []
    · simp [get_proxy_for_country, hne]
    · cases hidx : assocGet? st.country_proxy_index c with
      | some j => simp [get_proxy_for_country, hne, hidx]
      | none => simp [get_proxy_for_country, hne, hidx, assocGet?_assocSet_self]
  · intro st c i hne hidx hi
    have inv := rotateN_invariant st c i hne hidx hi
    have hk : 0 < st.proxies.length := List.length_pos.mpr hne
    have hback : assocGet? (rotateN st c st.proxies.length).country_proxy_index c =
        some i := by
      have h := (inv st.proxies.length).2.1
      rwa [Nat.add_mod_right, Nat.mod_eq_of_lt hi] at h
    refine ⟨?_, hback, ?_, fun n => (inv n).2.2⟩
    · intro n
      obtain ⟨ihpool, ihidx, -⟩ := inv n
      have hcur : (i + n) % st.proxies.length < st.proxies.length := Nat.mod_lt _ hk
      obtain ⟨p, hp⟩ : ∃ p, st.proxies[(i + n) % st.proxies.length]? = some p :=
        ⟨_, List.getElem?_eq_getElem hcur⟩
      have hp' : (rotateN st c n).proxies[(i + n) % st.proxies.length]? = some p := by
        rw [ihpool]; exact hp
      have h0 : (rotateN st c n).proxies ≠ [] := by rw [ihpool]; exact hne
      simp [rotate_proxy_for_country, h0, hne, ihpool, ihidx, hp, hp',
        Nat.mod_add_mod, Nat.add_assoc]
    · have hpool := (inv st.proxies.length).1
      have h0 : (rotateN st c st.proxies.length).proxies ≠ [] := by
        rw [hpool]; exact hne
      simp [get_proxy_for_country, h0, hne, hpool, hback]

/-- The three-proxy demonstration pool of the spec's example scenario. -/
def demoPool : List Proxy :=
  [{ host := "A", port := 1, username := "u", password := "p" },
   { host := "B", port := 2, username := "u", password := "p" },
   { host := "C", port := 3, username := "u", password := "p" }]

/-- Demonstration rotation state: tenant "dnk" assigned at index 1 of the
three-proxy pool. -/
def demoRotState : ProxyManagerState :=
  { proxies := demoPool, country_proxy_index := [("dnk", 1)] }

/-- C8 witness: on the three-proxy pool with "dnk" assigned at index 1, the
third rotate call returns the proxy at index `(1 + 2 + 1) % 3 = 1`, the
original assignment. -/
theorem C8_rotation_determinism_witness :
    (rotate_proxy_for_country (rotateN demoRotState "dnk" 2) "dnk").1 =
      demoRotState.proxies.get? ((1 + 2 + 1) % demoRotState.proxies.length) :=
  ((C8_rotation_determinism).2 demoRotState "dnk" 1
    (by decide) (by decide) (by decide)).1 2

/-- C2 counterexample: `start_session` performs no admission check, so four
raw start calls on a manager with budget 3 drive the active count to 4,
violating the claimed invariant for this interleaving of start/stop calls. -/
theorem C2_counterexample :
    get_active_count (start_session (start_session (start_session (start_session
        { max_parallel := 3 } 0 "fra" none) 1 "dnk" none) 2 "hrv" none)
        3 "cze" none) = 4 ∧
    (start_session (start_session (start_session (start_session
        { max_parallel := 3 } 0 "fra" none) 1 "dnk" none) 2 "hrv" none)
        3 "cze" none).max_parallel = 3 := by
  decide

/-- An operation of the admission interface: start or stop one tenant. -/
inductive AdmissionOp where
  | start (country_code : String) (proxy : Option String)
  | stop (country_code : String)

/-- The admission discipline the code's `can_start_scan` contract encodes:
a start is executed only when `can_start_scan` holds (otherwise skipped),
a stop is always executed. -/
def guardedAdmissionStep (st : SessionManagerState) (now : Nat) :
    AdmissionOp → SessionManagerState
  | .start c p => if can_start_scan st then start_session st now c p else st
  | .stop c => stop_session st now c

/-- Run a sequence of guarded admission operations. -/
def runAdmission (st : SessionManagerState) :
    List (Nat × AdmissionOp) → SessionManagerState
  | [] => st
  | (now, op) :: rest => runAdmission (guardedAdmissionStep st now op) rest

theorem filter_assocSet_le {β : Type} (f : String × β → Bool)
    (l : List (String × β)) (c : String) (v : β) :
    ((assocSet l c v).filter f).length ≤ (l.filter f).length + 1 := by
  induction l with
  | nil =>
    simp only [assocSet]
    cases hf : f (c, v) <;> simp [List.filter_cons, hf]
  | cons q rest ih =>
    obtain ⟨k, w⟩ := q
    by_cases h : (k == c) = true
    · simp only [assocSet, h, if_true]
      cases hf : f (c, v) <;> cases hw : f (k, w) <;>
        simp [List.filter_cons, hf, hw] <;> omega
    · have hf' : (k == c) = false := by simpa using h
      simp only [assocSet, hf', Bool.false_eq_true, if_false]
      cases hw : f (k, w) <;> simp [List.filter_cons, hw] <;> omega

theorem filter_assocSet_of_neg {β : Type} (f : String × β → Bool)
    (l : List (String × β)) (c : String) (v : β) (hfv : f (c, v) = false) :
    ((assocSet l c v).filter f).length ≤ (l.filter f).length := by
  induction l with
  | nil =>
    simp only [assocSet]
    simp [List.filter_cons, hfv]
  | cons q rest ih =>
    obtain ⟨k, w⟩ := q
    by_cases h : (k == c) = true
    · simp only [assocSet, h, if_true]
      cases hw : f (k, w) <;> simp [List.filter_cons, hfv, hw]
    · have hf' : (k == c) = false := by simpa using h
      simp only [assocSet, hf', Bool.false_eq_true, if_false]
      cases hw : f (k, w) <;> simp [List.filter_cons, hw] <;> omega

theorem get_active_count_start_le (st : SessionManagerState) (now : Nat)
    (c : String) (p : Option String) :
    get_active_count (start_session st now c p) ≤ get_active_count st + 1 := by
  unfold get_active_count start_session get_session
  cases hl : assocGet? st.sessions c with
  | some s => exact filter_assocSet_le _ st.sessions c _
  | none =>
    exact le_trans
      (filter_assocSet_le _ (assocSet st.sessions c { country_code := c }) c _)
      (Nat.add_le_add_right
        (filter_assocSet_of_neg _ st.sessions c _ rfl) 1)

theorem get_active_count_stop_le (st : SessionManagerState) (now : Nat)
    (c : String) :
    get_active_count (stop_session st now c) ≤ get_active_count st := by
  unfold get_active_count stop_session get_session
  cases hl : assocGet? st.sessions c with
  | some s => exact filter_assocSet_of_neg _ st.sessions c _ rfl
  | none =>
    exact le_trans
      (filter_assocSet_of_neg _ (assocSet st.sessions c { country_code := c }) c _ rfl)
      (filter_assocSet_of_neg _ st.sessions c _ rfl)

theorem start_session_max_parallel (st : SessionManagerState) (now : Nat)
    (c : String) (p : Option String) :
    (start_session st now c p).max_parallel = st.max_parallel := by
  unfold start_session get_session
  cases assocGet? st.sessions c <;> rfl

theorem stop_session_max_parallel (st : SessionManagerState) (now : Nat)
    (c : String) :
    (stop_session st now c).max_parallel = st.max_parallel := by
  unfold stop_session get_session
  cases assocGet? st.sessions c <;> rfl

/-- C2 amended: `start_session` itself performs no admission check (the
counterexample drives the count above the budget), but under the intended
discipline — every start guarded by `can_start_scan`, stops unrestricted —
the number of sessions in an active status
({CHECKING, WAITING_LOGIN, LOGGING_IN, WAITING_OTP, SCANNING}) never
exceeds `max_parallel`, for any interleaving of guarded starts and stops
from any state satisfying the bound. -/
theorem C2_amended (ops : List (Nat × AdmissionOp)) (st : SessionManagerState)
    (hinv : get_active_count st ≤ st.max_parallel) :
    get_active_count (runAdmission st ops) ≤ (runAdmission st ops).max_parallel := by
  induction ops generalizing st with
  | nil => simpa [runAdmission] using hinv
  | cons hd rest ih =>
    obtain ⟨now, op⟩ := hd
    show get_active_count (runAdmission (guardedAdmissionStep st now op) rest) ≤ _
    apply ih
    cases op with
    | start c p =>
      by_cases hcs : can_start_scan st = true
      · have h1 := get_active_count_start_le st now c p
        have h2 : get_active_count st < st.max_parallel := by
          simpa [can_start_scan] using hcs
        have h3 := start_session_max_parallel st now c p
        simp only [guardedAdmissionStep, hcs, if_true]
        omega
      · have hf : can_start_scan st = false := by simpa using hcs
        simp only [guardedAdmissionStep, hf, Bool.false_eq_true, if_false]
        exact hinv
    | stop c =>
      have h1 := get_active_count_stop_le st now c
      have h3 := stop_session_max_parallel st now c
      simp only [guardedAdmissionStep]
      omega

/-- C2 witness: four guarded starts and a stop on budget 3 keep the active
count within the budget (the fourth start is refused). -/
theorem C2_amended_witness :
    get_active_count (runAdmission { max_parallel := 3 }
      [(0, AdmissionOp.start "fra" none), (1, AdmissionOp.start "dnk" none),
       (2, AdmissionOp.start "hrv" none), (3, AdmissionOp.start "cze" none),
       (4, AdmissionOp.stop "fra")]) ≤
      (runAdmission { max_parallel := 3 }
        [(0, AdmissionOp.start "fra" none), (1, AdmissionOp.start "dnk" none),
         (2, AdmissionOp.start "hrv" none), (3, AdmissionOp.start "cze" none),
         (4, AdmissionOp.stop "fra")]).max_parallel :=
  C2_amended
    [(0, AdmissionOp.start "fra" none), (1, AdmissionOp.start "dnk" none),
     (2, AdmissionOp.start "hrv" none), (3, AdmissionOp.start "cze" none),
     (4, AdmissionOp.stop "fra")] { max_parallel := 3 } (by decide)

/-- The failing schedule for the login mutual-exclusion claim: tenant "fra"
runs `request_login` to completion (enter, lock grant, return — the return
exits the `async with` block and releases the lock), then tenant "dnk" does
the same. No `release_login` is called, so by the claim both tenants should
still be inside the lock-protected LOGGING_IN phase. -/
def loginDemoTrace : LoginConf :=
  runLogin { sm := {} }
    [(0, .startRequest "fra"), (1, .lockGranted "fra"), (2, .requestReturns "fra"),
     (3, .startRequest "dnk"), (4, .lockGranted "dnk"), (5, .requestReturns "dnk")]

/-- C1: the code violates login mutual exclusion. After "fra" completes
`request_login` its session status is LOGGING_IN but the lock is already
free (the `return` inside `async with` released it), so "dnk" can complete
`request_login` too: both tenants are simultaneously in LOGGING_IN, and the
lock is held by nobody even though both are still in LOGGING_IN. -/
theorem C1_two_tenants_logging_in :
    statusOf loginDemoTrace "fra" = ScanStatus.LOGGING_IN ∧
    statusOf loginDemoTrace "dnk" = ScanStatus.LOGGING_IN ∧
    loginDemoTrace.sm.login_lock = none := by
  decide

end VisaCheck
